import Mathlib

/-
Formal model of the pylogue chart-rendering and interaction-normalization
pipeline (src/pylogue/dashboarding.py: the Python `render_plotly_chart_py`
wrapper and the embedded client-side script) and of the SQL gate of the IPL
agent (scripts/agents/ipl/main.py).

JavaScript/JSON values are embedded as the inductive `JVal`; JS `undefined`
is represented by `Option JVal` at access points (a missing object key).
JS strings are embedded as Lean `String`, with `startsWith` / `endsWith`
modelled as prefix / suffix of the character sequence.
-/

/-- A JSON/JavaScript value (null, boolean, number, string, array, object).
Numbers are modelled as integers: every numeric literal that the modelled
code paths inspect or produce is integral. -/
inductive JVal where
  | null
  | bool (b : Bool)
  | num (n : Int)
  | str (s : String)
  | arr (elems : List JVal)
  | obj (fields : List (String × JVal))

/-- `Array.isArray(v)`. -/
def JVal.isArr : JVal → Bool
  | .arr _ => true
  | _ => false

/-- `v === null`. -/
def JVal.isNull : JVal → Bool
  | .null => true
  | _ => false

/-- JavaScript truthiness of a value. -/
def JVal.truthy : JVal → Bool
  | .null => false
  | .bool b => b
  | .num n => n != 0
  | .str s => s != ""
  | .arr _ => true
  | .obj _ => true

/-- `typeof v === 'object'` (true for objects, arrays and `null`). -/
def JVal.isObjType : JVal → Bool
  | .obj _ => true
  | .arr _ => true
  | .null => true
  | _ => false

/-- Property read `o[k]` on an object's field list; `none` models JS
`undefined` (key absent).  JS objects have unique keys, so the first match
is the value. -/
def jsGet (fields : List (String × JVal)) (k : String) : Option JVal :=
  (fields.find? (fun kv => kv.1 == k)).map (fun kv => kv.2)

/-- JS `s.startsWith(p)` / Python `s.startswith(p)`: `p`'s characters are a
prefix of `s`'s characters. -/
def startsWithChars (s p : String) : Bool :=
  p.data.isPrefixOf s.data

/-- JS `s.endsWith(p)` / Python `s.endswith(p)`: `p`'s characters are a
suffix of `s`'s characters. -/
def endsWithChars (s p : String) : Bool :=
  p.data.isSuffixOf s.data

/-- Lower-casing as applied by `String.prototype.toLowerCase` / `str.lower`
on the ASCII strings the modelled code compares. -/
def lowerStr (s : String) : String :=
  String.mk (s.data.map Char.toLower)

/-- Drop the first `n` characters (`s[n:]` / `String.prototype.slice(n)`). -/
def dropChars (s : String) (n : Nat) : String :=
  String.mk (s.data.drop n)

/-- The four trace-addressable keys, `TRACE_KEYS=['x','y','text','customdata']`
in the embedded script. -/
def TRACE_KEYS : List String := ["x", "y", "text", "customdata"]

/-- `normalizePerTraceValue(value, traceCount)` from the embedded script:

    if(value===undefined||value===null) return value;
    if(!Array.isArray(value)) return [value];
    if(traceCount===1){
      if(value.length===0) return [[]];
      if(Array.isArray(value[0])) return value;
      return [value];
    }
    if(value.length===traceCount && value.every((item)=>Array.isArray(item)||item===null)) return value;
    if(!Array.isArray(value[0])) return [value];
    return value;

`undefined` never reaches this function in the modelled call sites (callers
guard with `key in dataArgs`), so only `null` is represented. -/
def normalizePerTraceValue (value : JVal) (traceCount : Nat) : JVal :=
  match value with
  | .null => .null
  | .arr xs =>
    if traceCount = 1 then
      match xs with
      | [] => .arr [.arr []]
      | x :: _ => if x.isArr then .arr xs else .arr [.arr xs]
    else
      if xs.length = traceCount ∧ xs.all (fun item => item.isArr || item.isNull) then
        .arr xs
      else
        match xs with
        | [] => .arr [.arr xs]
        | x :: _ => if x.isArr then .arr xs else .arr [.arr xs]
  | v => .arr [v]

/-- The fragile-key test of `stripFragileAnnotationKeys`:
`key.startsWith('annotations[') && key.endsWith('].text')`. -/
def isFragileKey (k : String) : Bool :=
  startsWithChars k "annotations[" && endsWithChars k "].text"

/-- `stripFragileAnnotationKeys(obj)`: delete every fragile key of the
object's field list. -/
def stripFragileFields (fs : List (String × JVal)) : List (String × JVal) :=
  fs.filter (fun kv => !(isFragileKey kv.1))

/-- The normalization applied by `normalizeUpdateMenus` to a button's first
argument (`dataArgs`): each of the TRACE_KEYS present is reshaped with
`normalizePerTraceValue`, then fragile keys are stripped.  A non-object
value is left untouched (JS arrays pass the `typeof==='object'` test, but
hold none of the string keys that the loop and the stripper address). -/
def normalizeDataArgs (n : Nat) (v : JVal) : JVal :=
  match v with
  | .obj fs =>
    .obj (stripFragileFields (fs.map (fun kv =>
      if kv.1 ∈ TRACE_KEYS then (kv.1, normalizePerTraceValue kv.2 n) else kv)))
  | other => other

/-- The normalization applied to a button's second argument (`layoutArgs`):
fragile keys are stripped from an object; anything else is untouched. -/
def normalizeLayoutArgs (v : JVal) : JVal :=
  match v with
  | .obj fs => .obj (stripFragileFields fs)
  | other => other

/-- One `updatemenus` button: its `method` (`none` models an absent/falsy
method, turned into `''` by `String(btn.method||'')`) and its `args`
(`none` models `args` missing or not an array; a JS `null` button entry in
the buttons list behaves identically to `args = none` and is folded into
it, since such a button is skipped unread). -/
structure UpdateButton where
  method : Option String
  args : Option (List JVal)

/-- Per-button work of `normalizeUpdateMenus`: skip buttons without a
non-empty `args` array, skip non-`update` methods (case-insensitive),
otherwise normalize `args[0]` and strip `args[1]`. -/
def normalizeButton (n : Nat) (b : UpdateButton) : UpdateButton :=
  match b.args with
  | none => b
  | some [] => b
  | some (a0 :: rest) =>
    if lowerStr (b.method.getD "") ≠ "update" then b
    else
      { b with args := some (normalizeDataArgs n a0 ::
          (match rest with
           | [] => []
           | a1 :: tl => normalizeLayoutArgs a1 :: tl)) }

/-- The part of a ChartDocument that `normalizeUpdateMenus` reads: the
number of traces in `data` and the update menus, each reduced to its
buttons list (`(menu&&menu.buttons)||[]`). -/
structure ChartDoc where
  dataCount : Nat
  menus : List (List UpdateButton)

/-- `(fig.data||[]).length||1`: the trace count, minimum 1. -/
def traceCountOf (doc : ChartDoc) : Nat :=
  if doc.dataCount = 0 then 1 else doc.dataCount

/-- `normalizeUpdateMenus()` from the embedded script, as a pure document
transformation. -/
def normalizeUpdateMenus (doc : ChartDoc) : ChartDoc :=
  { doc with menus := doc.menus.map (fun menu =>
      menu.map (normalizeButton (traceCountOf doc))) }

/-- C1's reading of the normalizer, following the claim's words: for
`traceCount = 1` a sequence that is already a sequence-of-sequences, or is
empty, is left as-is and any other sequence is wrapped once; for
`traceCount > 1` a sequence of length `traceCount` whose elements are all
sequences or null is left as-is and any other sequence is wrapped once. -/
def claimNormalizePerTraceValue (value : JVal) (traceCount : Nat) : JVal :=
  match value with
  | .null => .null
  | .arr xs =>
    if traceCount = 1 then
      if xs.all JVal.isArr then .arr xs else .arr [.arr xs]
    else
      if xs.length = traceCount ∧ xs.all (fun item => item.isArr || item.isNull) then
        .arr xs
      else .arr [.arr xs]
  | v => .arr [v]

/-- The amended description of the normalizer (C1): null unchanged;
non-sequence wrapped once; for `traceCount = 1` an empty sequence is
wrapped once (yielding `[[]]`) and otherwise only the first element is
inspected (first element a sequence: left as-is, else wrapped once); for
`traceCount > 1` a sequence of length `traceCount` whose elements are all
sequences or null is left as-is, otherwise a sequence that is empty or
whose first element is not a sequence is wrapped once, and any other
sequence is left as-is. -/
def amendedNormalizePerTraceValue (value : JVal) (traceCount : Nat) : JVal :=
  match value with
  | .null => .null
  | .arr xs =>
    if traceCount = 1 then
      if xs.isEmpty then .arr [.arr []]
      else if (xs.head?.map JVal.isArr).getD false then .arr xs
      else .arr [.arr xs]
    else
      if xs.length = traceCount ∧ xs.all (fun item => item.isArr || item.isNull) then
        .arr xs
      else if (xs.head?.map JVal.isArr).getD false then .arr xs
      else .arr [.arr xs]
  | v => .arr [v]

/-- `mobileHeight()` from the embedded script:

    if(explicitHeight) return defaultHeight;
    const w=Math.max(280, Math.min(window.innerWidth||1024, 1400));
    return Math.max(280, Math.min(560, Math.round(w*0.6)));

`innerWidth` is a natural number; `innerWidth||1024` maps 0 to 1024.  For
integral `w` in the clamped range, `Math.round(w*0.6)` equals the exact
half-up rounding of `6w/10`, i.e. `(6*w+5)/10` in natural division (the
floating-point product never falls within 0.1 of a half-integer because
`6w` is even, so the double rounding is exact). -/
def mobileHeight (explicitHeight : Bool) (defaultHeight : Int) (innerWidth : Nat) : Int :=
  if explicitHeight then defaultHeight
  else
    let w := max 280 (min (if innerWidth = 0 then 1024 else innerWidth) 1400)
    Int.ofNat (max 280 (min 560 ((6 * w + 5) / 10)))

/-- The height formula as C5 states it:
`clamp(280, 560, round(0.6 × clamp(280, viewportWidth, 1400)))`. -/
def claimHeight (viewportWidth : Nat) : Int :=
  Int.ofNat (max 280 (min 560 ((6 * (max 280 (min viewportWidth 1400)) + 5) / 10)))

/-- A JS object property slot: absent, explicitly `null`, or a value. -/
inductive Slot (α : Type) where
  | absent
  | null
  | val (a : α)
deriving DecidableEq

/-- Python `int(q)` on a numeric value: truncation toward zero, i.e.
T-division of the numerator by the denominator.  Every Python float is a
binary rational, so a rational argument represents it exactly. -/
def pyInt (q : Rat) : Int := q.num.tdiv q.den

/-- The sizing-relevant fields of a chart layout.  `height = Slot.val h`
models an explicit numeric `layout.height`; the value is a rational so
that non-integral heights (floats, accepted by
`isinstance(user_height, (int, float))`) are representable.  Non-numeric
heights behave as absent for that test and are folded into
`Slot.absent`. -/
structure SizeLayout where
  height : Slot Rat
  width : Slot Int
  autosize : Slot Bool
deriving DecidableEq

/-- `has_explicit_height = isinstance(user_height, (int, float))`. -/
def hasExplicitHeight (l : SizeLayout) : Bool :=
  match l.height with
  | .val _ => true
  | _ => false

/-- `default_height = int(user_height) if has_explicit_height else 420`:
an explicit height is truncated toward zero by `int()`. -/
def defaultHeightOf (l : SizeLayout) : Int :=
  match l.height with
  | .val h => pyInt h
  | _ => 420

/-- The server-side pre-render pass of `render_plotly_chart_py` (lines
122-126): only when there is no explicit height, force `autosize = true`
and delete `width`. -/
def serverPrepass (l : SizeLayout) : SizeLayout :=
  if hasExplicitHeight l then l
  else { l with autosize := .val true, width := .absent }

/-- The layout mutation of each client-side `render()` call:

    fig.layout.autosize=true;
    fig.layout.width=null;
    fig.layout.height=mobileHeight();

performed unconditionally on every render/resize. -/
def clientRenderLayout (explicitHeight : Bool) (defaultHeight : Int) (innerWidth : Nat)
    (l : SizeLayout) : SizeLayout :=
  { l with autosize := .val true, width := .null,
           height := .val ((mobileHeight explicitHeight defaultHeight innerWidth : Int) : Rat) }

/-- A season-menu entry as `activeSeason()` reads it: `buttons = none`
models `menu.buttons` missing or not an array; each button is its label
after `String(...)` conversion, `none` modelling a missing/null label;
`active = none` models a non-integer `menu.active`. -/
structure SeasonMenu where
  buttons : Option (List (Option String))
  active : Option Int

/-- `activeSeason()` from `setupLinkedInteraction`: read the active button's
label of the configured menu, falling back to the default season when the
menu, the buttons array, the active button, or its label is absent. -/
def activeSeason (menus : List SeasonMenu) (idx : Int) (deflt : String) : String :=
  match (if 0 ≤ idx then menus.get? idx.toNat else none) with
  | none => deflt
  | some menu =>
    match menu.buttons with
    | none => deflt
    | some btns =>
      let a := menu.active.getD 0
      match (if 0 ≤ a then btns.get? a.toNat else none) with
      | none => deflt
      | some none => deflt
      | some (some lbl) => lbl

/-- `normalizeLinkedSeries(value)`: unwrap a single-nested array. -/
def normalizeLinkedSeries (v : JVal) : JVal :=
  match v with
  | .arr [.arr xs] => .arr xs
  | _ => v

/-- The target of the title patch of the linked-interaction click handler. -/
inductive TitleTarget where
  | annotationAt (i : Nat)
  | chartTitle
deriving DecidableEq

/-- The title-patch target choice (dashboarding.py lines 239-247):

    const idx=Number.isInteger(meta.target_title_annotation_index)
      ? meta.target_title_annotation_index : (anns.length>1?1:0);
    if(anns.length && idx>=0 && idx<anns.length){ ...patch annotation idx... }
    else { ...patch the top-level title... }
-/
def resolveTitleTarget (configured : Option Int) (annCount : Nat) : TitleTarget :=
  let idx : Int := configured.getD (if 1 < annCount then 1 else 0)
  if annCount ≠ 0 ∧ 0 ≤ idx ∧ idx < annCount then .annotationAt idx.toNat
  else .chartTitle

/-- C6's stated choice when no index is configured: the second annotation
when exactly two exist, else the first; the top-level title only when no
annotation exists. -/
def claimTitleChoice (annCount : Nat) : TitleTarget :=
  if annCount = 0 then .chartTitle
  else if annCount = 2 then .annotationAt 1
  else .annotationAt 0

/-- The `pylogue_linked_interaction` contract read from `layout.meta`.
Integer fields are `none` when the meta value fails `Number.isInteger`;
`default_season` is `none` when null/absent (`String(...)` is applied to a
present value); `lookup` is the object's field list. -/
structure LinkedMeta where
  source_trace : Option Int
  target_trace : Option Int
  season_menu_index : Option Int
  target_title_annotation_index : Option Int
  default_season : Option String
  lookup : List (String × JVal)

/-- `Number.isInteger(meta.source_trace)?meta.source_trace:0`. -/
def srcTrace (m : LinkedMeta) : Int := m.source_trace.getD 0

/-- `Number.isInteger(meta.target_trace)?meta.target_trace:1`. -/
def tgtTrace (m : LinkedMeta) : Int := m.target_trace.getD 1

/-- `Number.isInteger(meta.season_menu_index)?meta.season_menu_index:0`. -/
def menuIdx (m : LinkedMeta) : Int := m.season_menu_index.getD 0

/-- `meta.default_season==null?'':String(meta.default_season)`. -/
def defSeason (m : LinkedMeta) : String := m.default_season.getD ""

/-- One entry of `eventData.points`: the clicked trace index and the
clicked category label (`String(point.x)` is applied up front, so `x` is
carried as a string). -/
structure ClickPoint where
  curveNumber : Int
  x : String

/-- The live chart state the click handler reads: the update menus and the
annotations count of `gd.layout`, and `gd._fullData[targetTrace].yaxis`
(`none` when the trace or the field is absent/falsy, which the handler
turns into `'y'`). -/
structure GdState where
  menus : List SeasonMenu
  annCount : Nat
  targetYAxis : Option String

/-- The observable effect of one `plotly_click` event: the restyle issued
to the target trace (trace index and update patch), the axis-type relayout
key if one is issued, and the title patch if one is issued (the patched
value is carried before its `String(...)` conversion). -/
structure ClickEffects where
  restyle : Option (Int × List (String × JVal))
  axisRelayout : Option String
  titleRelayout : Option (TitleTarget × JVal)

/-- No restyle and no relayout: the handler returned early. -/
def noEffects : ClickEffects :=
  { restyle := none, axisRelayout := none, titleRelayout := none }

/-- `lookup[k1]||lookup[k2]` with JS truthiness. -/
def lookupResolve (lookup : List (String × JVal)) (k1 k2 : String) : Option JVal :=
  match jsGet lookup k1 with
  | some v => if v.truthy then some v else jsGet lookup k2
  | none => jsGet lookup k2

/-- The `plotly_click` handler installed by `setupLinkedInteraction`,
as a function from the contract, the live chart state and the event's
points to the effects issued:

    const point=eventData&&eventData.points&&eventData.points[0];
    if(!point||point.curveNumber!==sourceTrace) return;
    const label=String(point.x);
    const season=activeSeason();
    const combinedKey=season+'||'+label;
    const payload=lookup[combinedKey]||lookup[label];
    if(!payload||typeof payload!=='object') return;
    const update={}; ... (TRACE_KEYS present in payload, customdata raw,
      others through normalizeLinkedSeries, each wrapped as [val]);
    if(Object.keys(update).length===0) return;
    ... axis-type relayout when payload.y is a non-empty array of strings;
    Plotly.restyle(gd, update, [targetTrace]);
    if(payload.title){ ...annotation/title relayout... }
-/
def handleClick (meta : LinkedMeta) (gd : GdState) (points : List ClickPoint) :
    ClickEffects :=
  match points.head? with
  | none => noEffects
  | some pt =>
    if pt.curveNumber ≠ srcTrace meta then noEffects
    else
      let label := pt.x
      let season := activeSeason gd.menus (menuIdx meta) (defSeason meta)
      match lookupResolve meta.lookup (season ++ "||" ++ label) label with
      | none => noEffects
      | some payload =>
        if !(payload.truthy && payload.isObjType) then noEffects
        else
          let fields := match payload with
            | .obj fs => fs
            | _ => []
          let update := TRACE_KEYS.filterMap (fun k =>
            (jsGet fields k).map (fun v =>
              (k, JVal.arr [if k == "customdata" then v else normalizeLinkedSeries v])))
          if update.isEmpty then noEffects
          else
            let yRef := match gd.targetYAxis with
              | some s => if s = "" then "y" else s
              | none => "y"
            let yLayoutKey := if yRef = "y" then "yaxis" else "yaxis" ++ dropChars yRef 1
            let axis := match jsGet fields "y" with
              | some (.arr (JVal.str _ :: _)) => some (yLayoutKey ++ ".type")
              | _ => none
            let title := match jsGet fields "title" with
              | some t => if t.truthy then
                  some (resolveTitleTarget meta.target_title_annotation_index gd.annCount, t)
                else none
              | none => none
            { restyle := some (tgtTrace meta, update),
              axisRelayout := axis,
              titleRelayout := title }

/-- The update patch as C2 describes it: each of {x, y, text, customdata}
present in the resolved payload is mapped to `[v]`, where `v` is the
payload's value with an already-single-nested array unwrapped for keys
other than `customdata`. -/
def claimPatch (fields : List (String × JVal)) : List (String × JVal) :=
  TRACE_KEYS.filterMap (fun k =>
    (jsGet fields k).map (fun v =>
      (k, JVal.arr [if k == "customdata" then v else normalizeLinkedSeries v])))

/-- A Python exception: `exc` is an `Exception`-derived error (caught by the
`except Exception` handlers of `render_plotly_chart_py`); `base` is a
`BaseException` that is not an `Exception` (e.g. `SystemExit`,
`KeyboardInterrupt`), which no handler in the function catches. -/
inductive PyExc where
  | exc (msg : String)
  | base (msg : String)
deriving DecidableEq

/-- What the executed snippet left behind for the `fig` extraction:
`noFig` models `local_scope.get("fig") is None`; `notAFig` models a bound
`fig` lacking the `to_plotly_json` attribute; `fig s` models a chart object
whose `to_plotly_json()` call behaves as `s`. -/
inductive FigOutcome where
  | noFig
  | notAFig
  | fig (serialize : Except PyExc Unit)

/-- The behaviour of `exec(plotly_python, local_scope)` on the given
snippet: it diverges, raises, or finishes leaving a `FigOutcome`. -/
inductive SnippetBehavior where
  | diverge
  | raises (e : PyExc)
  | finishes (fig : FigOutcome)

/-- A value returned by `render_plotly_chart_py`: the success mapping
`{"_pylogue_html_id": id, "message": ...}` or an error string. -/
inductive RenderValue where
  | success (htmlId message : String)
  | errorStr (s : String)
deriving DecidableEq

/-- The observable outcome of a call to `render_plotly_chart_py`: it
returns a value, propagates an uncaught exception, or diverges. -/
inductive RenderOutcome where
  | returns (v : RenderValue)
  | propagates (msg : String)
  | diverges
deriving DecidableEq

/-- `render_plotly_chart_py`, abstracted over the behaviour of its
effectful collaborators: `depsOk` is the import guard; `fetch` is the
`pd.DataFrame(sql_query_runner(sql_query))` step (`.ok ()` also covers a
call without an attached query); `snippet` is the `exec` behaviour;
`store` covers `json.dumps` + `store_html` (`.ok id` yields the artifact
id).  The try/except structure is translated directly: the inner handlers
and the outer catch-all catch `Exception` only, so a `PyExc.base` always
propagates and a diverging snippet never returns. -/
def render_plotly_chart_py (depsOk : Bool) (fetch : Except PyExc Unit)
    (snippet : SnippetBehavior) (store : Except PyExc String) : RenderOutcome :=
  if !depsOk then
    .returns (.errorStr
      "Missing dependencies. Install with: pip install \"pylogue[dashboard]\" plotly")
  else
    match fetch with
    | .error (.exc m) => .returns (.errorStr ("Error in render_plotly_chart_py: " ++ m))
    | .error (.base m) => .propagates m
    | .ok _ =>
      match snippet with
      | .diverge => .diverges
      | .raises (.exc m) => .returns (.errorStr ("Error executing Plotly code: " ++ m))
      | .raises (.base m) => .propagates m
      | .finishes .noFig =>
        .returns (.errorStr "Error: Plotly code must define a `fig` variable.")
      | .finishes .notAFig =>
        .returns (.errorStr "Error: Plotly code must define a `fig` variable.")
      | .finishes (.fig (.error (.exc m))) =>
        .returns (.errorStr ("Error serializing Plotly figure: " ++ m))
      | .finishes (.fig (.error (.base m))) => .propagates m
      | .finishes (.fig (.ok _)) =>
        match store with
        | .error (.exc m) =>
          .returns (.errorStr ("Error in render_plotly_chart_py: " ++ m))
        | .error (.base m) => .propagates m
        | .ok htmlId => .returns (.success htmlId "Plotly chart rendered.")

/-- No collaborator raises a `BaseException` outside the `Exception`
hierarchy. -/
def baseFree (fetch : Except PyExc Unit) (snippet : SnippetBehavior)
    (store : Except PyExc String) : Prop :=
  (∀ m, fetch ≠ .error (.base m)) ∧ (∀ m, snippet ≠ .raises (.base m)) ∧
  (∀ m, snippet ≠ .finishes (.fig (.error (.base m)))) ∧
  (∀ m, store ≠ .error (.base m))

/-- Left-to-right, non-overlapping replacement of a non-empty pattern, with
a character-count fuel (the input's length always suffices): the semantics
of Python `str.replace` for the non-empty patterns used below. -/
def replaceFuel (pat rep : List Char) : Nat → List Char → List Char
  | _, [] => []
  | 0, s => s
  | Nat.succ fuel, c :: rest =>
    if pat.isPrefixOf (c :: rest) && !pat.isEmpty then
      rep ++ replaceFuel pat rep fuel (List.drop (pat.length - 1) rest)
    else c :: replaceFuel pat rep fuel rest

/-- Python `s.replace(pat, rep)` for a non-empty `pat`. -/
def pyReplace (s pat rep : String) : String :=
  String.mk (replaceFuel pat.data rep.data s.data.length s.data)

/-- Python `str.strip(chars)`: drop the given characters from both ends. -/
def pyStripSet (cs : List Char) (s : String) : String :=
  String.mk (((s.data.dropWhile (fun c => c ∈ cs)).reverse.dropWhile
    (fun c => c ∈ cs)).reverse)

/-- Python `str.rstrip(chars)`: drop the given characters from the right
end only. -/
def pyRStripSet (cs : List Char) (s : String) : String :=
  String.mk ((s.data.reverse.dropWhile (fun c => c ∈ cs)).reverse)

/-- The characters Python's no-argument `str.strip()` removes from the
ASCII queries modelled here. -/
def pyWhitespace : List Char := [' ', '\t', '\n', '\r', '\x0b', '\x0c']

/-- `_normalize_sql_query` from scripts/agents/ipl/main.py:

    query = (sql_query or "").strip()
    if query.startswith("```"):
        query = query.strip("`")
        if query.lower().startswith("sql\n"):
            query = query[4:]
    if (query.startswith('"') and query.endswith('"')) or (
        query.startswith("'") and query.endswith("'")
    ):
        query = query[1:-1]
    query = (
        query.replace("\\n", "\n")
        .replace("\\t", "\t")
        .replace("\\r", "\r")
        .strip()
        .rstrip(";")
    )
    return query
-/
def normalize_sql_query (sql : String) : String :=
  let query := pyStripSet pyWhitespace sql
  let query :=
    if startsWithChars query "```" then
      let q := pyStripSet ['`'] query
      if startsWithChars (lowerStr q) "sql\n" then dropChars q 4 else q
    else query
  let query :=
    if (startsWithChars query "\"" && endsWithChars query "\"") ||
       (startsWithChars query "'" && endsWithChars query "'") then
      String.mk ((query.data.drop 1).dropLast)
    else query
  pyRStripSet [';'] (pyStripSet pyWhitespace
    (pyReplace (pyReplace (pyReplace query "\\n" "\n") "\\t" "\t") "\\r" "\r"))

/-- Whether the data-fetch capability is invoked by `render_plotly_chart`,
and with which concrete SQL text. -/
inductive FetchTrace where
  | noFetch (err : String)
  | fetch (executedQuery : String)
deriving DecidableEq

/-- The query gate of `render_plotly_chart` (scripts/agents/ipl/main.py):
normalize the incoming query; reject it with an error string unless its
lower-cased form starts with `select`; otherwise hand the normalized query
to `render_plotly_chart_py`, whose data-fetch step runs it through
`_sql_query_runner`, which re-normalizes and wraps it as
`SELECT * FROM (...) t LIMIT 2000`. -/
def render_plotly_chart_fetch (sql : String) : FetchTrace :=
  let normalized := normalize_sql_query sql
  if startsWithChars (lowerStr normalized) "select" then
    .fetch ("SELECT * FROM (" ++ normalize_sql_query normalized ++ ") t LIMIT 2000")
  else
    .noFetch
      "Error: Only SELECT queries are allowed. Reference registered tables like matches or deliveries."

/-- Every trace-key value of a trace-data-patch mapping is a sequence or
null (the shape the data model prescribes for per-trace payloads). -/
def dataArgsWF (fs : List (String × JVal)) : Prop :=
  ∀ kv ∈ fs, kv.1 ∈ TRACE_KEYS → kv.2 = .null ∨ kv.2.isArr = true

/-- Every update-menu button's trace-data-patch mapping of the document is
`dataArgsWF`. -/
def docMenusWF (doc : ChartDoc) : Prop :=
  ∀ menu ∈ doc.menus, ∀ b ∈ menu, ∀ a0 rest, b.args = some (a0 :: rest) →
    ∀ fs, a0 = JVal.obj fs → dataArgsWF fs

theorem nptv_single_arr (a : JVal) (ha : a.isArr = true) (n : Nat) :
    normalizePerTraceValue (.arr [a]) n = .arr [a] := by
  by_cases h1 : n = 1
  · subst h1
    simp [normalizePerTraceValue, ha]
  · have hne : ¬((1 : Nat) = n) := fun he => h1 he.symm
    simp [normalizePerTraceValue, h1, hne, ha]

theorem normalizePerTraceValue_fix (v : JVal) (n : Nat)
    (h : v = .null ∨ v.isArr = true) :
    normalizePerTraceValue (normalizePerTraceValue v n) n
      = normalizePerTraceValue v n := by
  rcases h with h | h
  · subst h; rfl
  · cases v with
    | arr xs =>
      by_cases h1 : n = 1
      · subst h1
        cases xs with
        | nil => rfl
        | cons x tl =>
          by_cases hx : x.isArr
          · have h2 : normalizePerTraceValue (.arr (x :: tl)) 1 = .arr (x :: tl) := by
              simp [normalizePerTraceValue, hx]
            rw [h2, h2]
          · have hxf : x.isArr = false := by
              revert hx
              cases x.isArr <;> simp
            have h2 : normalizePerTraceValue (.arr (x :: tl)) 1
                = .arr [.arr (x :: tl)] := by
              simp [normalizePerTraceValue, hxf]
            rw [h2]
            exact nptv_single_arr (JVal.arr (x :: tl)) rfl 1
      · by_cases hc : xs.length = n ∧ xs.all (fun item => item.isArr || item.isNull) = true
        · have h2 : normalizePerTraceValue (.arr xs) n = .arr xs := by
            simp only [normalizePerTraceValue, if_neg h1, if_pos hc]
          rw [h2, h2]
        · cases xs with
          | nil =>
            have h2 : normalizePerTraceValue (.arr ([] : List JVal)) n
                = .arr [.arr []] := by
              simp only [normalizePerTraceValue, if_neg h1, if_neg hc]
            rw [h2]
            exact nptv_single_arr (JVal.arr []) rfl n
          | cons x tl =>
            by_cases hx : x.isArr
            · have h2 : normalizePerTraceValue (.arr (x :: tl)) n = .arr (x :: tl) := by
                simp only [normalizePerTraceValue, if_neg h1, if_neg hc, hx, if_pos]
              rw [h2, h2]
            · have hxf : x.isArr = false := by
                revert hx
                cases x.isArr <;> simp
              have h2 : normalizePerTraceValue (.arr (x :: tl)) n
                  = .arr [.arr (x :: tl)] := by
                simp only [normalizePerTraceValue, if_neg h1, if_neg hc, hxf,
                  Bool.false_eq_true, if_false]
              rw [h2]
              exact nptv_single_arr (JVal.arr (x :: tl)) rfl n
    | null => rfl
    | bool b => simp [JVal.isArr] at h
    | num m => simp [JVal.isArr] at h
    | str s => simp [JVal.isArr] at h
    | obj fs => simp [JVal.isArr] at h

/-- C1 counterexample: at the empty sequence with `traceCount = 1`,
`normalizePerTraceValue` returns `[[]]` (wrapped once), while the claim's
case analysis leaves an empty sequence as-is, so the two disagree. -/
theorem c1_counterexample :
    normalizePerTraceValue (JVal.arr []) 1 = JVal.arr [JVal.arr []] ∧
    claimNormalizePerTraceValue (JVal.arr []) 1 = JVal.arr [] ∧
    normalizePerTraceValue (JVal.arr []) 1
      ≠ claimNormalizePerTraceValue (JVal.arr []) 1 := by
  refine ⟨rfl, rfl, ?_⟩
  intro h
  simp [normalizePerTraceValue, claimNormalizePerTraceValue] at h

/-- C1 (amended): for every value `v` and trace count `n ≥ 1`,
`normalizePerTraceValue v n` equals the corrected case analysis: null
unchanged; a non-sequence scalar becomes `[v]`; when `n = 1` an empty
sequence is wrapped once (yielding `[[]]`), a sequence whose first element
is a sequence is left as-is, and any other sequence is wrapped once; when
`n > 1` a sequence of length `n` whose elements are all sequences or null
is left as-is, a sequence that is empty or whose first element is not a
sequence is wrapped once, and any other sequence is left as-is. -/
theorem c1_normalize_matches_amended_spec (v : JVal) (n : Nat) (hn : 1 ≤ n) :
    normalizePerTraceValue v n = amendedNormalizePerTraceValue v n := by
  cases v with
  | arr xs =>
    by_cases h1 : n = 1
    · subst h1
      cases xs with
      | nil => rfl
      | cons x tl =>
        by_cases hx : x.isArr
        · simp [normalizePerTraceValue, amendedNormalizePerTraceValue, hx]
        · have hxf : x.isArr = false := by
            revert hx
            cases x.isArr <;> simp
          simp [normalizePerTraceValue, amendedNormalizePerTraceValue, hxf]
    · by_cases hc : xs.length = n ∧ xs.all (fun item => item.isArr || item.isNull) = true
      · simp only [normalizePerTraceValue, amendedNormalizePerTraceValue,
          if_neg h1, if_pos hc]
      · cases xs with
        | nil =>
          simp only [normalizePerTraceValue, amendedNormalizePerTraceValue,
            if_neg h1, if_neg hc, List.isEmpty_nil]
          rfl
        | cons x tl =>
          by_cases hx : x.isArr
          · simp [normalizePerTraceValue, amendedNormalizePerTraceValue,
              if_neg h1, if_neg hc, hx]
          · have hxf : x.isArr = false := by
              revert hx
              cases x.isArr <;> simp
            simp [normalizePerTraceValue, amendedNormalizePerTraceValue,
              if_neg h1, if_neg hc, hxf]
  | null => rfl
  | bool b => rfl
  | num m => rfl
  | str s => rfl
  | obj fs => rfl

/-- C1 witness: the amended characterization applied at the flat sequence
`[1, 2]` with two traces (the code wraps it once, as the amended case
analysis says). -/
theorem c1_witness :
    1 ≤ 2 ∧
    normalizePerTraceValue (JVal.arr [JVal.num 1, JVal.num 2]) 2
      = amendedNormalizePerTraceValue (JVal.arr [JVal.num 1, JVal.num 2]) 2 :=
  ⟨by decide, c1_normalize_matches_amended_spec (JVal.arr [JVal.num 1, JVal.num 2]) 2 (by decide)⟩

/-- C4 counterexample: `normalizePerTraceValue` is not idempotent on the
scalar 5 with one trace: a first pass yields `[5]`, a second pass wraps
again to `[[5]]`. -/
theorem c4_counterexample :
    normalizePerTraceValue (JVal.num 5) 1 = JVal.arr [JVal.num 5] ∧
    normalizePerTraceValue (normalizePerTraceValue (JVal.num 5) 1) 1
      = JVal.arr [JVal.arr [JVal.num 5]] ∧
    normalizePerTraceValue (normalizePerTraceValue (JVal.num 5) 1) 1
      ≠ normalizePerTraceValue (JVal.num 5) 1 := by
  refine ⟨rfl, rfl, ?_⟩
  intro h
  simp [normalizePerTraceValue, JVal.isArr] at h

theorem stripFragileFields_idem (fs : List (String × JVal)) :
    stripFragileFields (stripFragileFields fs) = stripFragileFields fs := by
  simp only [stripFragileFields]
  induction fs with
  | nil => rfl
  | cons kv tl ih =>
    cases hf : isFragileKey kv.1 <;> simp [List.filter_cons, hf, ih]

theorem normalizeDataArgs_idem (n : Nat) (v : JVal)
    (h : ∀ fs, v = JVal.obj fs → dataArgsWF fs) :
    normalizeDataArgs n (normalizeDataArgs n v) = normalizeDataArgs n v := by
  cases v with
  | obj fs =>
    have hwf : dataArgsWF fs := h fs rfl
    clear h
    simp only [normalizeDataArgs]
    congr 1
    induction fs with
    | nil => rfl
    | cons kv tl ih =>
      have hkv := hwf kv (List.mem_cons_self kv tl)
      have htl : dataArgsWF tl := fun x hx => hwf x (List.mem_cons_of_mem kv hx)
      have ihtl := ih htl
      by_cases ht : kv.1 ∈ TRACE_KEYS
      · cases hf : isFragileKey kv.1
        · have hfix := normalizePerTraceValue_fix kv.2 n (hkv ht)
          simp only [stripFragileFields, List.map_cons, if_pos ht,
            List.filter_cons, hf, Bool.not_false, if_true, hfix] at ihtl ⊢
          exact congrArg (List.cons (kv.1, normalizePerTraceValue kv.2 n)) ihtl
        · simp only [stripFragileFields, List.map_cons, if_pos ht,
            List.filter_cons, hf, Bool.not_true, if_false] at ihtl ⊢
          exact ihtl
      · cases hf : isFragileKey kv.1
        · simp only [stripFragileFields, List.map_cons, if_neg ht,
            List.filter_cons, hf, Bool.not_false, if_true] at ihtl ⊢
          exact congrArg (List.cons kv) ihtl
        · simp only [stripFragileFields, List.map_cons, if_neg ht,
            List.filter_cons, hf, Bool.not_true, if_false] at ihtl ⊢
          exact ihtl
  | null => rfl
  | bool b => rfl
  | num m => rfl
  | str s => rfl
  | arr xs => rfl

theorem normalizeLayoutArgs_idem (v : JVal) :
    normalizeLayoutArgs (normalizeLayoutArgs v) = normalizeLayoutArgs v := by
  cases v with
  | obj fs => simp [normalizeLayoutArgs, stripFragileFields_idem]
  | null => rfl
  | bool b => rfl
  | num m => rfl
  | str s => rfl
  | arr xs => rfl

theorem normalizeButton_idem (n : Nat) (b : UpdateButton)
    (hwf : ∀ a0 rest, b.args = some (a0 :: rest) →
      ∀ fs, a0 = JVal.obj fs → dataArgsWF fs) :
    normalizeButton n (normalizeButton n b) = normalizeButton n b := by
  obtain ⟨m, args⟩ := b
  cases args with
  | none => rfl
  | some l =>
    cases l with
    | nil => rfl
    | cons a0 rest =>
      by_cases hm : lowerStr (m.getD "") ≠ "update"
      · simp only [normalizeButton, if_pos hm]
      · have ha0 : ∀ fs, a0 = JVal.obj fs → dataArgsWF fs :=
          fun fs hfs => hwf a0 rest rfl fs hfs
        cases rest with
        | nil =>
          simp only [normalizeButton, if_neg hm,
            normalizeDataArgs_idem n a0 ha0]
        | cons a1 tl =>
          simp only [normalizeButton, if_neg hm,
            normalizeDataArgs_idem n a0 ha0, normalizeLayoutArgs_idem]

/-- C4 (amended): the normalization pass is idempotent on sequence and
null values — for every `v` that is null or a sequence and every
`n ≥ 1`, `normalizePerTraceValue (normalizePerTraceValue v n) n =
normalizePerTraceValue v n` (a non-sequence scalar is instead wrapped
again by a second pass) — and a second run of `normalizeUpdateMenus`
leaves the document unchanged whenever every trace-key value of every
update button's trace-data-patch mapping was a sequence or null. -/
theorem c4_idempotent_on_sequences :
    (∀ (v : JVal) (n : Nat), 1 ≤ n → (v = .null ∨ v.isArr = true) →
      normalizePerTraceValue (normalizePerTraceValue v n) n
        = normalizePerTraceValue v n)
    ∧ (∀ doc : ChartDoc, docMenusWF doc →
      normalizeUpdateMenus (normalizeUpdateMenus doc) = normalizeUpdateMenus doc) := by
  constructor
  · intro v n _ h
    exact normalizePerTraceValue_fix v n h
  · intro doc hwf
    have hcount : traceCountOf (normalizeUpdateMenus doc) = traceCountOf doc := rfl
    simp only [normalizeUpdateMenus, hcount]
    congr 1
    simp only [List.map_map]
    apply List.map_congr_left
    intro menu hmenu
    simp only [Function.comp_apply, List.map_map]
    apply List.map_congr_left
    intro b hb
    exact normalizeButton_idem (traceCountOf doc) b
      (fun a0 rest hargs fs hfs => hwf menu hmenu b hb a0 rest hargs fs hfs)

/-- C4 witness: idempotence evaluated at the already-wrapped sequence
`[5]` with one trace, and second-run stability evaluated on a document
with one update button whose patch carries a sequence-valued `x`. -/
theorem c4_witness :
    (1 ≤ 1 ∧ (JVal.arr [JVal.num 5] = .null ∨ (JVal.arr [JVal.num 5]).isArr = true) ∧
      normalizePerTraceValue (normalizePerTraceValue (JVal.arr [JVal.num 5]) 1) 1
        = normalizePerTraceValue (JVal.arr [JVal.num 5]) 1)
    ∧ (normalizeUpdateMenus (normalizeUpdateMenus
        ⟨1, [[⟨some "update", some [JVal.obj [("x", JVal.arr [JVal.num 1])]]⟩]]⟩)
      = normalizeUpdateMenus
        ⟨1, [[⟨some "update", some [JVal.obj [("x", JVal.arr [JVal.num 1])]]⟩]]⟩) := by
  constructor
  · exact ⟨by decide, Or.inr rfl,
      c4_idempotent_on_sequences.1 (JVal.arr [JVal.num 5]) 1 (by decide) (Or.inr rfl)⟩
  · apply c4_idempotent_on_sequences.2
    intro menu hmenu b hb a0 rest hargs fs hfs
    simp only [List.mem_singleton] at hmenu
    subst hmenu
    simp only [List.mem_singleton] at hb
    subst hb
    simp only [Option.some.injEq] at hargs
    have ha0 : a0 = JVal.obj [("x", JVal.arr [JVal.num 1])] := (List.cons.injEq _ _ _ _).mp hargs.symm |>.1
    rw [ha0] at hfs
    have hfs2 : fs = [("x", JVal.arr [JVal.num 1])] := ((JVal.obj.injEq _ _).mp hfs).symm
    subst hfs2
    intro kv hkv hk
    simp only [List.mem_singleton] at hkv
    subst hkv
    exact Or.inr rfl

/-- C5 counterexample: two divergences from the claim.  At viewport width
0 the script substitutes 1024 (`window.innerWidth||1024`) and computes
height 560 where the claim's formula gives 280.  And an explicit
non-integral height — 300.5, i.e. `mkRat 601 2` — is truncated by
`int(user_height)` to a constant computed height of 300 ≠ 300.5, where
the claim says the computed height equals the explicit number itself. -/
theorem c5_counterexample :
    mobileHeight false 420 0 = 560 ∧ claimHeight 0 = 280 ∧
    mobileHeight false 420 0 ≠ claimHeight 0 ∧
    (mkRat 601 2 : Rat) = 300.5 ∧
    defaultHeightOf ⟨Slot.val (mkRat 601 2), Slot.absent, Slot.absent⟩ = 300 ∧
    mobileHeight
      (hasExplicitHeight ⟨Slot.val (mkRat 601 2), Slot.absent, Slot.absent⟩)
      (defaultHeightOf ⟨Slot.val (mkRat 601 2), Slot.absent, Slot.absent⟩) 1000 = 300 ∧
    ((300 : Rat) ≠ mkRat 601 2) := by
  refine ⟨rfl, rfl, by decide, by norm_num, by decide, by decide, by decide⟩

theorem pyInt_intCast (z : Int) : pyInt ((z : Int) : Rat) = z := by
  simp [pyInt, Rat.num_intCast, Rat.den_intCast, Int.tdiv_one]

/-- C5 (amended): for every layout with an explicit numeric
`layout.height` h, the computed height equals `int(h)` — h truncated
toward zero — at every render for every viewport width (constant for the
artifact's lifetime), hence equals h itself whenever h is integral; with
no explicit height and a nonzero viewport width (a zero/absent width
falls back to 1024) the computed height equals
`clamp(280, 560, round(0.6 × clamp(280, width, 1400)))`, which is
monotonically non-decreasing over nonzero widths, and the no-explicit-
height computed height always lies within [280, 560]. -/
theorem c5_height_amended :
    (∀ (l : SizeLayout) (h : Rat) (w : Nat), l.height = Slot.val h →
        mobileHeight (hasExplicitHeight l) (defaultHeightOf l) w = pyInt h)
    ∧ (∀ (l : SizeLayout) (z : Int) (w : Nat), l.height = Slot.val ((z : Int) : Rat) →
        mobileHeight (hasExplicitHeight l) (defaultHeightOf l) w = z)
    ∧ (∀ (d : Int) (w : Nat), 1 ≤ w → mobileHeight false d w = claimHeight w)
    ∧ (∀ (d : Int) (w₁ w₂ : Nat), 1 ≤ w₁ → w₁ ≤ w₂ →
        mobileHeight false d w₁ ≤ mobileHeight false d w₂)
    ∧ (∀ (d : Int) (w : Nat),
        280 ≤ mobileHeight false d w ∧ mobileHeight false d w ≤ 560) := by
  refine ⟨?_, ?_, ?_, ?_, ?_⟩
  · intro l h w hl
    obtain ⟨ht, wd, au⟩ := l
    have hl2 : ht = Slot.val h := hl
    subst hl2
    rfl
  · intro l z w hl
    obtain ⟨ht, wd, au⟩ := l
    have hl2 : ht = Slot.val ((z : Int) : Rat) := hl
    subst hl2
    show pyInt ((z : Int) : Rat) = z
    exact pyInt_intCast z
  · intro d w hw
    have h0 : ¬(w = 0) := by omega
    simp only [mobileHeight, claimHeight, if_false, Bool.false_eq_true, if_neg h0]
  · intro d w₁ w₂ hw₁ hw₂
    have h1 : ¬(w₁ = 0) := by omega
    have h2 : ¬(w₂ = 0) := by omega
    simp only [mobileHeight, if_false, Bool.false_eq_true, if_neg h1, if_neg h2]
    have : (max 280 (min 560 ((6 * max 280 (min w₁ 1400) + 5) / 10)))
        ≤ (max 280 (min 560 ((6 * max 280 (min w₂ 1400) + 5) / 10))) := by omega
    exact Int.ofNat_le.mpr this
  · intro d w
    simp only [mobileHeight, if_false, Bool.false_eq_true]
    constructor
    · have h : 280 ≤ max 280 (min 560
          ((6 * max 280 (min (if w = 0 then 1024 else w) 1400) + 5) / 10)) :=
        Nat.le_max_left _ _
      exact Int.ofNat_le.mpr h
    · have h : max 280 (min 560
          ((6 * max 280 (min (if w = 0 then 1024 else w) 1400) + 5) / 10)) ≤ 560 := by
        omega
      exact Int.ofNat_le.mpr h

/-- C5 witness: an explicit height of 300.5 (`mkRat 601 2`) renders as the
constant 300 at width 500; an explicit integral height 300 renders as 300
itself; at width 350 the height matches the claim's formula; the height is
monotone from width 300 to 1000; and at width 90 it is clamped into
[280, 560]. -/
theorem c5_witness :
    ((⟨Slot.val (mkRat 601 2), Slot.absent, Slot.absent⟩ : SizeLayout).height
        = Slot.val (mkRat 601 2)
      ∧ mobileHeight
          (hasExplicitHeight ⟨Slot.val (mkRat 601 2), Slot.absent, Slot.absent⟩)
          (defaultHeightOf ⟨Slot.val (mkRat 601 2), Slot.absent, Slot.absent⟩) 500
        = pyInt (mkRat 601 2)
      ∧ pyInt (mkRat 601 2) = 300)
    ∧ ((⟨Slot.val ((300 : Int) : Rat), Slot.absent, Slot.absent⟩ : SizeLayout).height
        = Slot.val ((300 : Int) : Rat)
      ∧ mobileHeight
          (hasExplicitHeight ⟨Slot.val ((300 : Int) : Rat), Slot.absent, Slot.absent⟩)
          (defaultHeightOf ⟨Slot.val ((300 : Int) : Rat), Slot.absent, Slot.absent⟩) 500
        = 300)
    ∧ (1 ≤ 350 ∧ mobileHeight false 420 350 = claimHeight 350)
    ∧ (1 ≤ 300 ∧ 300 ≤ 1000 ∧
        mobileHeight false 420 300 ≤ mobileHeight false 420 1000)
    ∧ (280 ≤ mobileHeight false 420 90 ∧ mobileHeight false 420 90 ≤ 560) :=
  ⟨⟨rfl, c5_height_amended.1 ⟨Slot.val (mkRat 601 2), Slot.absent, Slot.absent⟩
      (mkRat 601 2) 500 rfl, by decide⟩,
   ⟨rfl, c5_height_amended.2.1 ⟨Slot.val ((300 : Int) : Rat), Slot.absent, Slot.absent⟩
      300 500 rfl⟩,
   ⟨by decide, c5_height_amended.2.2.1 420 350 (by decide)⟩,
   ⟨by decide, by decide, c5_height_amended.2.2.2.1 420 300 1000 (by decide) (by decide)⟩,
   c5_height_amended.2.2.2.2 420 90⟩

/-- C8 counterexample: on a layout with explicit height 300 and explicit
width 800, a client-side render still nulls the width and forces
`autosize = true`, contradicting the claim that both are left unchanged
whenever the height is explicit. -/
theorem c8_counterexample :
    hasExplicitHeight ⟨Slot.val 300, Slot.val 800, Slot.absent⟩ = true ∧
    (clientRenderLayout true 300 1000
      ⟨Slot.val 300, Slot.val 800, Slot.absent⟩).width = Slot.null ∧
    (clientRenderLayout true 300 1000
      ⟨Slot.val 300, Slot.val 800, Slot.absent⟩).width
      ≠ (⟨Slot.val 300, Slot.val 800, Slot.absent⟩ : SizeLayout).width ∧
    (clientRenderLayout true 300 1000
      ⟨Slot.val 300, Slot.val 800, Slot.absent⟩).autosize
      ≠ (⟨Slot.val 300, Slot.val 800, Slot.absent⟩ : SizeLayout).autosize := by
  decide

/-- C8 (amended): only the server-side pre-render pass is conditional — for
every layout with an explicit numeric height it leaves the layout (hence
`width` and `autosize`) unchanged — while the client-side render
unconditionally sets `width` to null and `autosize` to true on every
render, explicit height or not. -/
theorem c8_width_autosize_amended :
    (∀ l : SizeLayout, hasExplicitHeight l = true → serverPrepass l = l)
    ∧ (∀ (e : Bool) (d : Int) (w : Nat) (l : SizeLayout),
        (clientRenderLayout e d w l).width = Slot.null
        ∧ (clientRenderLayout e d w l).autosize = Slot.val true) := by
  constructor
  · intro l h
    simp [serverPrepass, h]
  · intro e d w l
    exact ⟨rfl, rfl⟩

/-- C8 witness: the server pre-render pass applied to an explicit-height
layout with explicit width 800 returns it unchanged. -/
theorem c8_witness :
    hasExplicitHeight ⟨Slot.val 300, Slot.val 800, Slot.absent⟩ = true ∧
    serverPrepass ⟨Slot.val 300, Slot.val 800, Slot.absent⟩
      = ⟨Slot.val 300, Slot.val 800, Slot.absent⟩ :=
  ⟨rfl, c8_width_autosize_amended.1 ⟨Slot.val 300, Slot.val 800, Slot.absent⟩ rfl⟩

/-- C6 counterexample: with three annotations and no configured index the
handler patches annotation index 1 (the second), while the claim says the
second is chosen only when exactly two exist and the first otherwise. -/
theorem c6_counterexample :
    resolveTitleTarget none 3 = TitleTarget.annotationAt 1 ∧
    claimTitleChoice 3 = TitleTarget.annotationAt 0 ∧
    resolveTitleTarget none 3 ≠ claimTitleChoice 3 := by
  decide

/-- C6 (amended): when no `target_title_annotation_index` is configured,
the patched target is the second annotation whenever more than one
annotation exists, the first annotation when exactly one exists, and the
top-level chart title only when no annotation exists. -/
theorem c6_title_choice_amended (n : Nat) :
    resolveTitleTarget none n =
      (if n = 0 then TitleTarget.chartTitle
       else if 1 < n then TitleTarget.annotationAt 1
       else TitleTarget.annotationAt 0) := by
  by_cases h0 : n = 0
  · subst h0
    decide
  · by_cases h1 : 1 < n
    · simp only [resolveTitleTarget, Option.getD_none, if_pos h1, if_neg h0]
      rw [if_pos ⟨h0, by omega, by omega⟩]
      rfl
    · have hn : n = 1 := by omega
      subst hn
      decide

theorem wrap_endsWith_limit (q : String) :
    endsWithChars ("SELECT * FROM (" ++ q ++ ") t LIMIT 2000") " LIMIT 2000" = true := by
  unfold endsWithChars
  apply (List.isSuffixOf_iff_suffix).mpr
  have h1 : " LIMIT 2000".data <:+ ") t LIMIT 2000".data :=
    (List.isSuffixOf_iff_suffix).mp (by decide)
  have h2 : ") t LIMIT 2000".data
      <:+ ("SELECT * FROM (" ++ q ++ ") t LIMIT 2000").data := by
    rw [String.data_append]
    exact List.suffix_append _ _
  exact h1.trans h2

theorem drop_not_select (s : String) (h : startsWithChars s "drop" = true) :
    startsWithChars s "select" = false := by
  cases hsel : startsWithChars s "select" with
  | false => rfl
  | true =>
    exfalso
    have h1 := (List.isPrefixOf_iff_prefix).mp h
    have h2 := (List.isPrefixOf_iff_prefix).mp hsel
    rcases h1 with ⟨t1, ht1⟩
    rcases h2 with ⟨t2, ht2⟩
    rw [← ht1] at ht2
    have ht3 : 's' :: ('e' :: 'l' :: 'e' :: 'c' :: 't' :: []) ++ t2
        = 'd' :: ('r' :: 'o' :: 'p' :: []) ++ t1 := ht2
    injection ht3 with hh _
    exact absurd hh (by decide)

/-- C9: for every query string, the data-fetch capability is invoked only
when the normalized query lexically begins with `select`
(case-insensitive), in which case the executed SQL is the caller's
normalized query wrapped in the bounding clause
`SELECT * FROM (...) t LIMIT 2000`; a query that does not begin with
`select` after normalization — in particular one beginning with `drop` —
is rejected with an error string and nothing is executed. -/
theorem c9_select_only_gate (sql : String) :
    (∀ executed, render_plotly_chart_fetch sql = .fetch executed →
        startsWithChars (lowerStr (normalize_sql_query sql)) "select" = true
      ∧ executed = "SELECT * FROM ("
          ++ normalize_sql_query (normalize_sql_query sql) ++ ") t LIMIT 2000"
      ∧ endsWithChars executed " LIMIT 2000" = true)
    ∧ (startsWithChars (lowerStr (normalize_sql_query sql)) "select" = false →
        render_plotly_chart_fetch sql = .noFetch
          "Error: Only SELECT queries are allowed. Reference registered tables like matches or deliveries.")
    ∧ (startsWithChars (lowerStr (normalize_sql_query sql)) "drop" = true →
        render_plotly_chart_fetch sql = .noFetch
          "Error: Only SELECT queries are allowed. Reference registered tables like matches or deliveries.") := by
  refine ⟨?_, ?_, ?_⟩
  · intro executed hex
    simp only [render_plotly_chart_fetch] at hex
    split at hex
    next hs =>
      have hexec := (FetchTrace.fetch.injEq _ _).mp hex
      exact ⟨hs, hexec.symm, by rw [← hexec]; exact wrap_endsWith_limit _⟩
    next hs => exact absurd hex (by simp)
  · intro hs
    simp only [render_plotly_chart_fetch, hs, Bool.false_eq_true, if_false]
  · intro hdrop
    have hs := drop_not_select (lowerStr (normalize_sql_query sql)) hdrop
    simp only [render_plotly_chart_fetch, hs, Bool.false_eq_true, if_false]

/-- C9 witness: `SELECT 1` passes the gate and is executed wrapped with
`LIMIT 2000`; `DROP TABLE matches` normalizes to a `drop`-leading query and
is rejected before any fetch. -/
theorem c9_witness :
    (render_plotly_chart_fetch "SELECT 1"
        = .fetch "SELECT * FROM (SELECT 1) t LIMIT 2000"
      ∧ startsWithChars (lowerStr (normalize_sql_query "SELECT 1")) "select" = true
      ∧ endsWithChars "SELECT * FROM (SELECT 1) t LIMIT 2000" " LIMIT 2000" = true)
    ∧ (startsWithChars (lowerStr (normalize_sql_query "DROP TABLE matches")) "drop" = true
      ∧ render_plotly_chart_fetch "DROP TABLE matches" = .noFetch
          "Error: Only SELECT queries are allowed. Reference registered tables like matches or deliveries.") :=
  ⟨⟨by decide,
    ((c9_select_only_gate "SELECT 1").1 "SELECT * FROM (SELECT 1) t LIMIT 2000" (by decide)).1,
    ((c9_select_only_gate "SELECT 1").1 "SELECT * FROM (SELECT 1) t LIMIT 2000" (by decide)).2.2⟩,
   ⟨by decide, (c9_select_only_gate "DROP TABLE matches").2.2 (by decide)⟩⟩

/-- C3 counterexample: the claim's universal ("for every input triple the
function terminates without propagating an exception and returns a
mapping or string") fails at a snippet that raises `SystemExit` — a
`BaseException` no `except Exception` handler catches — which propagates
to the caller, and at a snippet that never terminates. -/
theorem c3_counterexample :
    render_plotly_chart_py true (.ok ()) (.raises (.base "SystemExit")) (.ok "h1")
      = .propagates "SystemExit"
    ∧ (∀ v, render_plotly_chart_py true (.ok ())
        (.raises (.base "SystemExit")) (.ok "h1") ≠ .returns v)
    ∧ render_plotly_chart_py true (.ok ()) .diverge (.ok "h1") = .diverges := by
  refine ⟨rfl, ?_, rfl⟩
  intro v h
  simp [render_plotly_chart_py] at h

/-- C3 (amended): for every input whose snippet execution terminates and
whose collaborators raise only `Exception`-derived errors,
`render_plotly_chart_py` returns a value — a success mapping or a
descriptive error string: a snippet raising an `Exception` yields
"Error executing Plotly code: ..."; a missing (or interface-less) `fig`
yields the literal "Error: Plotly code must define a `fig` variable.";
a serialization failure yields "Error serializing Plotly figure: ...";
any other failure is caught by the catch-all and returned as
"Error in render_plotly_chart_py: ..."; otherwise the success mapping
carries the artifact id and message. -/
theorem c3_errors_as_strings_amended (depsOk : Bool) (fetch : Except PyExc Unit)
    (snippet : SnippetBehavior) (store : Except PyExc String)
    (hterm : snippet ≠ .diverge) (hbase : baseFree fetch snippet store) :
    (∃ v, render_plotly_chart_py depsOk fetch snippet store = .returns v)
    ∧ (∀ m, depsOk = true → fetch = .ok () → snippet = .raises (.exc m) →
        render_plotly_chart_py depsOk fetch snippet store
          = .returns (.errorStr ("Error executing Plotly code: " ++ m)))
    ∧ (depsOk = true → fetch = .ok () →
        (snippet = .finishes .noFig ∨ snippet = .finishes .notAFig) →
        render_plotly_chart_py depsOk fetch snippet store
          = .returns (.errorStr "Error: Plotly code must define a `fig` variable."))
    ∧ (∀ m, depsOk = true → fetch = .ok () →
        snippet = .finishes (.fig (.error (.exc m))) →
        render_plotly_chart_py depsOk fetch snippet store
          = .returns (.errorStr ("Error serializing Plotly figure: " ++ m)))
    ∧ (∀ m, depsOk = true → fetch = .ok () →
        snippet = .finishes (.fig (.ok ())) → store = .error (.exc m) →
        render_plotly_chart_py depsOk fetch snippet store
          = .returns (.errorStr ("Error in render_plotly_chart_py: " ++ m)))
    ∧ (∀ i, depsOk = true → fetch = .ok () →
        snippet = .finishes (.fig (.ok ())) → store = .ok i →
        render_plotly_chart_py depsOk fetch snippet store
          = .returns (.success i "Plotly chart rendered.")) := by
  obtain ⟨hb1, hb2, hb3, hb4⟩ := hbase
  refine ⟨?_, ?_, ?_, ?_, ?_, ?_⟩
  · cases depsOk with
    | false => exact ⟨_, rfl⟩
    | true =>
      cases fetch with
      | error e =>
        cases e with
        | exc m => exact ⟨_, rfl⟩
        | base m => exact absurd rfl (hb1 m)
      | ok u =>
        cases u
        cases snippet with
        | diverge => exact absurd rfl hterm
        | raises e =>
          cases e with
          | exc m => exact ⟨_, rfl⟩
          | base m => exact absurd rfl (hb2 m)
        | finishes f =>
          cases f with
          | noFig => exact ⟨_, rfl⟩
          | notAFig => exact ⟨_, rfl⟩
          | fig s =>
            cases s with
            | error e =>
              cases e with
              | exc m => exact ⟨_, rfl⟩
              | base m => exact absurd rfl (hb3 m)
            | ok u2 =>
              cases u2
              cases store with
              | error e =>
                cases e with
                | exc m => exact ⟨_, rfl⟩
                | base m => exact absurd rfl (hb4 m)
              | ok i => exact ⟨_, rfl⟩
  · intro m hd hf hs
    subst hd; subst hf; subst hs; rfl
  · intro hd hf hs
    subst hd; subst hf
    rcases hs with hs | hs
    · subst hs; rfl
    · subst hs; rfl
  · intro m hd hf hs
    subst hd; subst hf; subst hs; rfl
  · intro m hd hf hs hst
    subst hd; subst hf; subst hs; subst hst; rfl
  · intro i hd hf hs hst
    subst hd; subst hf; subst hs; subst hst; rfl

/-- C3 witness: a snippet raising the `Exception` "boom" satisfies the
amended hypotheses and produces the executing-error string. -/
theorem c3_witness :
    ((SnippetBehavior.raises (.exc "boom")) ≠ .diverge
      ∧ baseFree (.ok ()) (.raises (.exc "boom")) (.ok "h1"))
    ∧ render_plotly_chart_py true (.ok ()) (.raises (.exc "boom")) (.ok "h1")
        = .returns (.errorStr ("Error executing Plotly code: " ++ "boom")) := by
  have hterm : (SnippetBehavior.raises (.exc "boom")) ≠ .diverge :=
    fun h => nomatch h
  have hbase : baseFree (.ok ()) (.raises (.exc "boom")) (.ok "h1") :=
    ⟨fun m h => (nomatch h), fun m h => (nomatch h),
     fun m h => (nomatch h), fun m h => (nomatch h)⟩
  exact ⟨⟨hterm, hbase⟩,
    (c3_errors_as_strings_amended true (.ok ()) (.raises (.exc "boom")) (.ok "h1")
      hterm hbase).2.1 "boom" rfl rfl rfl⟩

/-- C10: binding `fig` to a value lacking the `to_plotly_json` interface
yields exactly the same outcome as never assigning `fig` at all — in
particular the literal error string "Error: Plotly code must define a
`fig` variable." — for every dependency state, fetch outcome and store
outcome. -/
theorem c10_fig_interface_judged (d : Bool) (fetch : Except PyExc Unit)
    (store : Except PyExc String) :
    (render_plotly_chart_py d fetch (.finishes .notAFig) store
      = render_plotly_chart_py d fetch (.finishes .noFig) store)
    ∧ (render_plotly_chart_py true (.ok ()) (.finishes .notAFig) (.ok "h1")
      = .returns (.errorStr "Error: Plotly code must define a `fig` variable.")) := by
  constructor
  · cases d with
    | false => rfl
    | true =>
      cases fetch with
      | error e => rfl
      | ok u => rfl
  · rfl

theorem annKey_isFragile (s : String) :
    isFragileKey ("annotations[" ++ s ++ "].text") = true := by
  simp only [isFragileKey, Bool.and_eq_true]
  constructor
  · apply (List.isPrefixOf_iff_prefix).mpr
    rw [String.data_append, String.data_append, List.append_assoc]
    exact List.prefix_append _ _
  · apply (List.isSuffixOf_iff_suffix).mpr
    rw [String.data_append]
    exact List.suffix_append _ _

theorem jsGet_strip_fragile (fs : List (String × JVal)) (k : String)
    (hk : isFragileKey k = true) :
    jsGet (stripFragileFields fs) k = none := by
  have hfind : (stripFragileFields fs).find? (fun kv => kv.1 == k) = none := by
    apply List.find?_eq_none.mpr
    intro kv hkv hbeq
    have hmem := List.mem_filter.mp hkv
    have hkeq : kv.1 = k := by simpa using hbeq
    rw [hkeq] at hmem
    simp [hk] at hmem
  simp [jsGet, hfind]

/-- C7: after `normalizeUpdateMenus`, for every button of every menu whose
method is "update" (case-insensitive) and every index `i`, no key
`annotations[i].text` remains in either the button's trace-data-patch
mapping (`args[0]`) or its layout-patch mapping (`args[1]`). -/
theorem c7_fragile_keys_stripped (doc : ChartDoc) (menu : List UpdateButton)
    (b : UpdateButton) (hmenu : menu ∈ (normalizeUpdateMenus doc).menus)
    (hb : b ∈ menu) (hupd : lowerStr (b.method.getD "") = "update")
    (args : List JVal) (hargs : b.args = some args) (i : Nat) :
    (∀ fs, args.get? 0 = some (JVal.obj fs) →
      jsGet fs ("annotations[" ++ toString i ++ "].text") = none)
    ∧ (∀ fs, args.get? 1 = some (JVal.obj fs) →
      jsGet fs ("annotations[" ++ toString i ++ "].text") = none) := by
  simp only [normalizeUpdateMenus, List.mem_map] at hmenu
  rcases hmenu with ⟨menu0, hm0, rfl⟩
  rcases List.mem_map.mp hb with ⟨b0, hb0, rfl⟩
  obtain ⟨m0, args0⟩ := b0
  cases args0 with
  | none =>
    simp only [normalizeButton] at hargs
    cases hargs
  | some l0 =>
    cases l0 with
    | nil =>
      simp only [normalizeButton, Option.some.injEq] at hargs
      subst hargs
      exact ⟨fun fs h => (nomatch h), fun fs h => (nomatch h)⟩
    | cons a0 rest =>
      by_cases hm : lowerStr (m0.getD "") ≠ "update"
      · simp only [normalizeButton, if_pos hm] at hargs hupd
        exact absurd hupd hm
      · simp only [normalizeButton, if_neg hm] at hargs
        simp only [Option.some.injEq] at hargs
        subst hargs
        constructor
        · intro fs hfs
          simp only [List.get?] at hfs
          cases a0 with
          | obj fs0 =>
            simp only [normalizeDataArgs, JVal.obj.injEq, Option.some.injEq] at hfs
            rw [← hfs]
            exact jsGet_strip_fragile _ _ (annKey_isFragile _)
          | null => cases hfs
          | bool x => cases hfs
          | num x => cases hfs
          | str x => cases hfs
          | arr x => cases hfs
        · intro fs hfs
          cases rest with
          | nil => cases hfs
          | cons a1 tl =>
            simp only [List.get?] at hfs
            cases a1 with
            | obj fs1 =>
              simp only [normalizeLayoutArgs, JVal.obj.injEq, Option.some.injEq] at hfs
              rw [← hfs]
              exact jsGet_strip_fragile _ _ (annKey_isFragile _)
            | null => cases hfs
            | bool x => cases hfs
            | num x => cases hfs
            | str x => cases hfs
            | arr x => cases hfs

/-- C7 witness: a document with one "Update" button carrying
`annotations[0].text` in its trace-data patch and `annotations[1].text` in
its layout patch normalizes to patches holding no `annotations[i].text`
key, checked at `i = 0`. -/
theorem c7_witness :
    (normalizeUpdateMenus ⟨1, [[⟨some "Update",
        some [JVal.obj [("annotations[0].text", JVal.str "T"), ("x", JVal.num 1)],
              JVal.obj [("annotations[1].text", JVal.str "U")]]⟩]]⟩).menus
      = [[⟨some "Update",
          some [JVal.obj [("x", JVal.arr [JVal.num 1])], JVal.obj []]⟩]]
    ∧ ((∀ fs, ([JVal.obj [("x", JVal.arr [JVal.num 1])], JVal.obj []].get? 0
          = some (JVal.obj fs)) →
          jsGet fs ("annotations[" ++ toString 0 ++ "].text") = none)
      ∧ (∀ fs, ([JVal.obj [("x", JVal.arr [JVal.num 1])], JVal.obj []].get? 1
          = some (JVal.obj fs)) →
          jsGet fs ("annotations[" ++ toString 0 ++ "].text") = none)) := by
  constructor
  · rfl
  · exact c7_fragile_keys_stripped
      ⟨1, [[⟨some "Update",
        some [JVal.obj [("annotations[0].text", JVal.str "T"), ("x", JVal.num 1)],
              JVal.obj [("annotations[1].text", JVal.str "U")]]⟩]]⟩
      [⟨some "Update", some [JVal.obj [("x", JVal.arr [JVal.num 1])], JVal.obj []]⟩]
      ⟨some "Update", some [JVal.obj [("x", JVal.arr [JVal.num 1])], JVal.obj []]⟩
      (List.mem_singleton.mpr rfl) (List.mem_singleton.mpr rfl) (by decide)
      [JVal.obj [("x", JVal.arr [JVal.num 1])], JVal.obj []] rfl 0

theorem jsGet_some_mem (fields : List (String × JVal)) (k : String) (v : JVal)
    (h : jsGet fields k = some v) : ∃ kv ∈ fields, kv.2 = v := by
  unfold jsGet at h
  cases hf : fields.find? (fun kv => kv.1 == k) with
  | none => rw [hf] at h; cases h
  | some kv =>
    rw [hf] at h
    have h2 : some kv.2 = some v := h
    injection h2 with h3
    exact ⟨kv, List.mem_of_find?_eq_some hf, h3⟩

theorem lookupResolve_wf (lookup : List (String × JVal))
    (hwf : ∀ kv ∈ lookup, ∃ fs, kv.2 = JVal.obj fs) (k1 k2 : String) :
    lookupResolve lookup k1 k2
      = (jsGet lookup k1).orElse (fun _ => jsGet lookup k2) := by
  unfold lookupResolve
  cases hj : jsGet lookup k1 with
  | none => rfl
  | some v =>
    rcases jsGet_some_mem lookup k1 v hj with ⟨kv, hmem, hv⟩
    rcases hwf kv hmem with ⟨fs, hfs⟩
    have hobj : v = JVal.obj fs := by rw [← hv, hfs]
    subst hobj
    rfl

/-- C2 counterexample: with contract `lookup = {"MI": {title: "T"}}`, a
click on the source trace at category "MI" resolves a payload (the bare
key "MI"), yet the handler issues no restyle at all — the resolved payload
holds none of {x, y, text, customdata}, a case the claim's "otherwise a
restyle is applied to the target trace" does not allow for. -/
theorem c2_counterexample :
    ((jsGet [("MI", JVal.obj [("title", JVal.str "T")])]
        (activeSeason [] 0 "" ++ "||" ++ "MI")).orElse
      (fun _ => jsGet [("MI", JVal.obj [("title", JVal.str "T")])] "MI")).isSome = true
    ∧ (handleClick ⟨none, none, none, none, none,
        [("MI", JVal.obj [("title", JVal.str "T")])]⟩ ⟨[], 0, none⟩
        [⟨0, "MI"⟩]).restyle = none
    ∧ handleClick ⟨none, none, none, none, none,
        [("MI", JVal.obj [("title", JVal.str "T")])]⟩ ⟨[], 0, none⟩
        [⟨0, "MI"⟩] = noEffects :=
  ⟨rfl, rfl, rfl⟩

/-- C2 (amended): for every click event, assuming the data-model invariant
that every `lookup` value is a Payload mapping: a click on a trace other
than the source trace is ignored (no restyle, no relayout); the active
season is the configured menu's active button label, silently falling back
to the default season whenever the menu, its buttons array, the active
button, or its label is absent; the payload resolves as
`lookup[season || label]` if present, else `lookup[label]`, the composite
key always taking precedence; if neither key resolves, no restyle or
relayout is issued; if the resolved payload holds none of
{x, y, text, customdata}, the event is likewise ignored entirely; and
otherwise a restyle is applied to the target trace only, whose patch maps
each present key to `[v]`, with an already-single-nested array unwrapped
for keys other than `customdata`. -/
theorem c2_linked_click_amended (meta : LinkedMeta) (gd : GdState)
    (pts : List ClickPoint) (pt : ClickPoint) (hpt : pts.head? = some pt)
    (hwf : ∀ kv ∈ meta.lookup, ∃ fs, kv.2 = JVal.obj fs) :
    (pt.curveNumber ≠ srcTrace meta → handleClick meta gd pts = noEffects)
    ∧ ((if 0 ≤ menuIdx meta then gd.menus.get? (menuIdx meta).toNat else none) = none →
        activeSeason gd.menus (menuIdx meta) (defSeason meta) = defSeason meta)
    ∧ (∀ menu,
        (if 0 ≤ menuIdx meta then gd.menus.get? (menuIdx meta).toNat else none)
          = some menu →
        (menu.buttons = none →
          activeSeason gd.menus (menuIdx meta) (defSeason meta) = defSeason meta)
        ∧ (∀ btns, menu.buttons = some btns →
            ((if 0 ≤ menu.active.getD 0 then btns.get? (menu.active.getD 0).toNat
                else none) = none →
              activeSeason gd.menus (menuIdx meta) (defSeason meta) = defSeason meta)
            ∧ ((if 0 ≤ menu.active.getD 0 then btns.get? (menu.active.getD 0).toNat
                else none) = some none →
              activeSeason gd.menus (menuIdx meta) (defSeason meta) = defSeason meta)
            ∧ (∀ lbl, (if 0 ≤ menu.active.getD 0 then
                btns.get? (menu.active.getD 0).toNat else none) = some (some lbl) →
              activeSeason gd.menus (menuIdx meta) (defSeason meta) = lbl)))
    ∧ (pt.curveNumber = srcTrace meta →
        ((jsGet meta.lookup
            (activeSeason gd.menus (menuIdx meta) (defSeason meta) ++ "||" ++ pt.x)).orElse
          (fun _ => jsGet meta.lookup pt.x) = none →
          handleClick meta gd pts = noEffects)
        ∧ (∀ fs, (jsGet meta.lookup
            (activeSeason gd.menus (menuIdx meta) (defSeason meta) ++ "||" ++ pt.x)).orElse
          (fun _ => jsGet meta.lookup pt.x) = some (JVal.obj fs) →
            (claimPatch fs = [] → handleClick meta gd pts = noEffects)
            ∧ (claimPatch fs ≠ [] →
                (handleClick meta gd pts).restyle = some (tgtTrace meta, claimPatch fs)))) := by
  refine ⟨?_, ?_, ?_, ?_⟩
  · intro h
    simp only [handleClick, hpt]
    rw [if_pos h]
  · intro h
    simp only [activeSeason, h]
  · intro menu hm
    constructor
    · intro hbtn
      simp only [activeSeason, hm, hbtn]
    · intro btns hbtn
      refine ⟨?_, ?_, ?_⟩
      · intro ha
        simp only [activeSeason, hm, hbtn, ha]
      · intro ha
        simp only [activeSeason, hm, hbtn, ha]
      · intro lbl ha
        simp only [activeSeason, hm, hbtn, ha]
  · intro hcurve
    have hne : ¬(pt.curveNumber ≠ srcTrace meta) := fun hne2 => hne2 hcurve
    have hres := lookupResolve_wf meta.lookup hwf
      (activeSeason gd.menus (menuIdx meta) (defSeason meta) ++ "||" ++ pt.x) pt.x
    constructor
    · intro h
      simp only [handleClick, hpt]
      rw [if_neg hne, hres, h]
    · intro fs hfs
      constructor
      · intro hp
        simp only [handleClick, hpt]
        rw [if_neg hne, hres, hfs]
        simp only [JVal.truthy, JVal.isObjType, Bool.and_self, Bool.not_true,
          Bool.false_eq_true, if_false, claimPatch] at hp ⊢
        rw [hp]
        rfl
      · intro hp
        have hempty : (claimPatch fs).isEmpty = false := by
          cases hl : (claimPatch fs).isEmpty with
          | false => rfl
          | true => exact absurd (List.isEmpty_iff.mp hl) hp
        simp only [handleClick, hpt]
        rw [if_neg hne, hres, hfs]
        simp only [JVal.truthy, JVal.isObjType, Bool.and_self, Bool.not_true,
          Bool.false_eq_true, if_false]
        simp only [claimPatch] at hempty ⊢
        rw [hempty]
        rfl

/-- C2 witness: with lookup `{"2020||MI": {y: [10, 20]}}`, active season
"2020" and a click on the source trace at "MI", the handler restyles the
target trace with `y = [[10, 20]]`. -/
theorem c2_witness :
    ([(⟨0, "MI"⟩ : ClickPoint)].head? = some ⟨0, "MI"⟩
      ∧ (∀ kv ∈ [("2020||MI", JVal.obj [("y", JVal.arr [JVal.num 10, JVal.num 20])])],
          ∃ fs, kv.2 = JVal.obj fs))
    ∧ (handleClick ⟨some 0, some 1, some 0, none, none,
        [("2020||MI", JVal.obj [("y", JVal.arr [JVal.num 10, JVal.num 20])])]⟩
        ⟨[⟨some [some "2020"], some 0⟩], 2, none⟩ [⟨0, "MI"⟩]).restyle
      = some (1, claimPatch [("y", JVal.arr [JVal.num 10, JVal.num 20])])
    ∧ claimPatch [("y", JVal.arr [JVal.num 10, JVal.num 20])]
      = [("y", JVal.arr [JVal.arr [JVal.num 10, JVal.num 20]])] := by
  have hwf : ∀ kv ∈ [("2020||MI", JVal.obj [("y", JVal.arr [JVal.num 10, JVal.num 20])])],
      ∃ fs, kv.2 = JVal.obj fs := by
    intro kv hkv
    rcases List.mem_singleton.mp hkv with rfl
    exact ⟨_, rfl⟩
  refine ⟨⟨rfl, hwf⟩, ?_, rfl⟩
  have happ := (c2_linked_click_amended
      ⟨some 0, some 1, some 0, none, none,
        [("2020||MI", JVal.obj [("y", JVal.arr [JVal.num 10, JVal.num 20])])]⟩
      ⟨[⟨some [some "2020"], some 0⟩], 2, none⟩ [⟨0, "MI"⟩] ⟨0, "MI"⟩ rfl hwf).2.2.2 rfl
  exact (happ.2 [("y", JVal.arr [JVal.num 10, JVal.num 20])] rfl).2 (fun h => nomatch h)
